import Mathlib

/-!
# PlateHub server bootstrap and migration scripts: embedding and verification

Shallow embedding of the health-check-aware Express server bootstrap
(`server/index.ts` as laid out in the repository's health-check fix document)
and of the exit-code behaviour of the one-off database migration scripts,
together with theorems settling the specification's claims about them.

Modelling conventions:
* A request is its visible fields: method, path, headers (an association list
  of lowercased header names to values, as Node's `req.headers` provides),
  query parameters, plus fields (`ip`, `body`) that the classifier must not
  read.
* An Express handler is a function from a request to an outcome: either a
  response or a `next()` call, together with the log entries it emitted.
* `app.get(path, h)` is modelled as running `h` exactly when the path
  matches and the request method is GET or HEAD: Express dispatches HEAD
  requests to GET handlers when, as here, no explicit HEAD route exists
  (for a HEAD request the transport strips the response body; the handler
  itself still runs and produces it).
* JS `||` on possibly-absent values is modelled on `Option` with JS
  falsiness: `0` for numbers and `""` for strings count as absent.
* Strings are Lean strings; lengths count Unicode code points.
-/

namespace PlateHub

/-- HTTP request method. -/
inductive Method where
  | GET
  | POST
  | PUT
  | DELETE
  | HEAD
  | OPTIONS
  | PATCH
  deriving DecidableEq, Repr

/-- A request's visible fields. `headers` and `query` are association lists
(first binding wins, as in Node's header object); `ip` and `body` stand for
the parts of a request the health-check classifier must not depend on. -/
structure Request where
  method : Method
  path : String
  headers : List (String × String)
  query : List (String × String)
  ip : String
  body : String
  deriving DecidableEq, Repr

/-- `req.headers[name]`: first binding for `name`, if any. -/
def Request.header (r : Request) (name : String) : Option String :=
  (r.headers.find? fun p => p.1 == name).map Prod.snd

/-- `req.query[name]`: first binding for `name`, if any. -/
def Request.queryParam (r : Request) (name : String) : Option String :=
  (r.query.find? fun p => p.1 == name).map Prod.snd

/-- `req.headers['user-agent'] || ''` from the root route handler. -/
def Request.userAgent (r : Request) : String :=
  (r.header "user-agent").getD ""

/-- JS `String.prototype.includes`: case-sensitive substring containment. -/
def strIncludes (s pat : String) : Bool :=
  decide (pat.data <:+: s.data)

/-- JS `String.prototype.startsWith`: case-sensitive prefix test. -/
def strStartsWith (s pat : String) : Bool :=
  decide (pat.data <+: s.data)

/-- The health-check classifier computed inside the `app.get('/')` handler:
user-agent substring tests against the fixed allow-list, the two custom
headers compared to `"true"`, and the `health=check` query parameter. -/
def isHealthCheck (r : Request) : Bool :=
  strIncludes r.userAgent "GoogleHC" ||
  strIncludes r.userAgent "HealthCheck" ||
  strIncludes r.userAgent "curl" ||
  strIncludes r.userAgent "Replit" ||
  decide (r.header "x-health-check" = some "true") ||
  decide (r.header "x-replit-health-check" = some "true") ||
  decide (r.queryParam "health" = some "check")

/-- An HTTP response as produced by `res.status(s).send(b)`. -/
structure Response where
  status : Nat
  body : String
  deriving DecidableEq, Repr

/-- One `logHealthCheck` log entry: method, path and the classification that
was logged (timestamp, user-agent excerpt, ip and query are diagnostics on
top of these and carry no control-flow weight in the model). -/
structure LogEntry where
  method : Method
  path : String
  classifiedHealthCheck : Bool
  deriving DecidableEq, Repr

/-- What a handler does with the request: answer it, or call `next()`. -/
inductive Step where
  | respond (resp : Response)
  | next
  deriving DecidableEq, Repr

/-- A handler run: its control-flow step and the log entries it emitted. -/
structure HandlerOutcome where
  step : Step
  logs : List LogEntry
  deriving DecidableEq, Repr

/-- Body of the `app.get('/')` handler: classify, log the classification,
then either answer `200 "OK"` immediately or pass to the next handler. -/
def rootHandlerBody (r : Request) : HandlerOutcome :=
  let hc := isHealthCheck r
  { step := if hc then Step.respond { status := 200, body := "OK" } else Step.next
    logs := [{ method := r.method, path := r.path, classifiedHealthCheck := hc }] }

/-- Body shared by the `/health`, `/api/health` and `/__repl` handlers:
log with classification `true` and answer `200 "OK"` unconditionally. -/
def fixedOkBody (r : Request) : HandlerOutcome :=
  { step := Step.respond { status := 200, body := "OK" }
    logs := [{ method := r.method, path := r.path, classifiedHealthCheck := true }] }

/-- `app.get(path, h)`: `h` runs exactly when the path matches and the
method is GET or HEAD — Express routes HEAD requests to GET handlers when
no explicit HEAD route is registered, which is the case in this app;
otherwise the route is skipped (a `next()` with no log output). -/
def appGet (path : String) (h : Request → HandlerOutcome) (r : Request) : HandlerOutcome :=
  if (r.method = Method.GET ∨ r.method = Method.HEAD) ∧ r.path = path then h r
  else { step := Step.next, logs := [] }

/-- Run a middleware/route stack in registration order: the first handler
whose step is a response ends the run; `next()` steps accumulate logs and
hand the same request to the rest of the stack. -/
def dispatch : List (Request → HandlerOutcome) → Request → HandlerOutcome
  | [], _ => { step := Step.next, logs := [] }
  | h :: hs, r =>
    match (h r).step with
    | Step.respond resp => { step := Step.respond resp, logs := (h r).logs }
    | Step.next =>
      { step := (dispatch hs r).step, logs := (h r).logs ++ (dispatch hs r).logs }

/-- The four routes registered first in `server/index.ts`, in order: the
classifying root route and the three unconditional health endpoints. -/
def healthRoutes : List (Request → HandlerOutcome) :=
  [appGet "/" rootHandlerBody,
   appGet "/health" fixedOkBody,
   appGet "/api/health" fixedOkBody,
   appGet "/__repl" fixedOkBody]

/-- A thrown JS error as the catch-all error middleware reads it: optional
`status`, `statusCode` and `message` properties. -/
structure JsError where
  status : Option Nat
  statusCode : Option Nat
  message : Option String
  deriving DecidableEq, Repr

/-- JS truthiness filter on an optional number: `0` is falsy. -/
def truthyNum : Option Nat → Option Nat
  | some n => if n = 0 then none else some n
  | none => none

/-- JS truthiness filter on an optional string: `""` is falsy. -/
def truthyStr : Option String → Option String
  | some s => if s = "" then none else some s
  | none => none

/-- The JSON body `{ message }` sent by the catch-all error middleware. -/
structure JsonErrorBody where
  message : String
  deriving DecidableEq, Repr

/-- Result of the catch-all error middleware: the response it sends and
whether it terminated the process. -/
structure ErrorOutcome where
  status : Nat
  body : JsonErrorBody
  processTerminated : Bool
  deriving DecidableEq, Repr

/-- The catch-all error middleware: `status = err.status || err.statusCode
|| 500`, `message = err.message || "Internal Server Error"`, answered as
`res.status(status).json({ message })`; it never calls `process.exit`. -/
def errorHandler (err : JsError) : ErrorOutcome :=
  { status := (truthyNum err.status).getD ((truthyNum err.statusCode).getD 500)
    body := { message := (truthyStr err.message).getD "Internal Server Error" }
    processTerminated := false }

/-- Rendering of a method inside a log line. -/
def Method.render : Method → String
  | .GET => "GET"
  | .POST => "POST"
  | .PUT => "PUT"
  | .DELETE => "DELETE"
  | .HEAD => "HEAD"
  | .OPTIONS => "OPTIONS"
  | .PATCH => "PATCH"

/-- The raw log line built by the request logging middleware on `finish`:
`"{method} {path} {status} in {duration}ms"`, with ` :: `-appended JSON when
a `res.json` body was captured. -/
def jsLogLine (m : Method) (path : String) (statusCode duration : Nat)
    (captured : Option String) : String :=
  let base := m.render ++ " " ++ path ++ " " ++ toString statusCode ++
    " in " ++ toString duration ++ "ms"
  match captured with
  | some j => base ++ " :: " ++ j
  | none => base

/-- The literal appended by the truncation branch. In the source this is the
three-character sequence resulting from the ellipsis U+2026 having been
re-encoded (its UTF-8 bytes read as Latin-1), so its length is 3, not 1. -/
def truncSuffix : String := "â€¦"

/-- `if (logLine.length > 80) logLine = logLine.slice(0, 79) + "â€¦"`. -/
def truncateLogLine (line : String) : String :=
  if line.length > 80 then String.mk (line.data.take 79) ++ truncSuffix else line

/-- The log line emitted by the request logging middleware, if any: only
paths starting with `/api` are logged, after truncation. -/
def emittedLog (m : Method) (path : String) (statusCode duration : Nat)
    (captured : Option String) : Option String :=
  if strStartsWith path "/api" then
    some (truncateLogLine (jsLogLine m path statusCode duration captured))
  else none

/-- Exit code of the add-vimeo-embed-url migration script: the
`information_schema` row-count check runs first; a failure of either it or
the guarded `ALTER TABLE` is rethrown and reaches the final `.catch`, which
exits 1; otherwise the final `.then` exits 0. -/
def vimeoMigrationExit (selectRows : Except String Nat)
    (alterResult : Except String Unit) : Nat :=
  match selectRows with
  | Except.error _ => 1
  | Except.ok n =>
    if n = 0 then
      match alterResult with
      | Except.error _ => 1
      | Except.ok _ => 0
    else 0

/-- Exit code of the filters/email/favorites migration script: three
`pool.query` statements run in order inside one `try`; the `catch` exits 1,
the success path exits 0. -/
def filtersMigrationExit (createFilters addEmail createFavorites : Except String Unit) : Nat :=
  match createFilters with
  | Except.error _ => 1
  | Except.ok _ =>
    match addEmail with
    | Except.error _ => 1
    | Except.ok _ =>
      match createFavorites with
      | Except.error _ => 1
      | Except.ok _ => 0

/-- Exit code of the add-full-preview-url migration script: a missing
`DATABASE_URL` throws before the inner `try`, reaching the outer `.catch`
that exits 1; a failure of the `ALTER TABLE` itself is caught by the inner
`catch`, merely logged, and the script falls through to `process.exit(0)`. -/
def fullPreviewMigrationExit (databaseUrlSet : Bool)
    (alterResult : Except String Unit) : Nat :=
  if databaseUrlSet then
    match alterResult with
    | Except.error _ => 0
    | Except.ok _ => 0
  else 1

/-! ## Concrete requests and errors used by the witnesses -/

/-- A Google health-check probe to the root path. -/
def googleHcProbe : Request :=
  { method := Method.GET, path := "/"
    headers := [("user-agent", "GoogleHC/1.0")], query := []
    ip := "10.1.2.3", body := "" }

/-- A browser-agent request to the root path carrying the explicit
`x-health-check: true` header. -/
def headerProbe : Request :=
  { method := Method.GET, path := "/"
    headers := [("user-agent", "Mozilla/5.0 (X11; Linux x86_64)"),
                ("x-health-check", "true")]
    query := [], ip := "10.1.2.3", body := "" }

/-- A plain browser request to the root path with no health-check signal. -/
def browserRequest : Request :=
  { method := Method.GET, path := "/"
    headers := [("user-agent", "Mozilla/5.0 (X11; Linux x86_64) AppleWebKit/537.36")]
    query := [], ip := "198.51.100.7", body := "" }

/-- A POST to the root path that carries every health-check signal. -/
def postRootRequest : Request :=
  { method := Method.POST, path := "/"
    headers := [("user-agent", "GoogleHC/1.0"), ("x-health-check", "true")]
    query := [("health", "check")], ip := "10.1.2.3", body := "payload" }

/-- A GET to `/api/health` whose headers and query argue against being a
health check. -/
def apiHealthRequest : Request :=
  { method := Method.GET, path := "/api/health"
    headers := [("user-agent", "Mozilla/5.0"), ("x-health-check", "false")]
    query := [("health", "nope")], ip := "203.0.113.9", body := "" }

/-! ## Theorems for the claims about the classifier and the root router -/

/-- C2: for every GET request to `/` whose user-agent contains `"GoogleHC"`,
`"HealthCheck"`, `"curl"` or `"Replit"` as a case-sensitive substring, the
classifier returns true and the root route answers status 200, body `"OK"`
(logging the classification), independently of every handler registered
after it — so no downstream handler is invoked. -/
theorem C2_health_ua_short_circuits (r : Request)
    (rest : List (Request → HandlerOutcome))
    (hm : r.method = Method.GET) (hp : r.path = "/")
    (hua : "GoogleHC".data <:+: r.userAgent.data ∨
           "HealthCheck".data <:+: r.userAgent.data ∨
           "curl".data <:+: r.userAgent.data ∨
           "Replit".data <:+: r.userAgent.data) :
    isHealthCheck r = true ∧
    dispatch (appGet "/" rootHandlerBody :: rest) r =
      { step := Step.respond { status := 200, body := "OK" }
        logs := [{ method := Method.GET, path := "/", classifiedHealthCheck := true }] } := by
  have hhc : isHealthCheck r = true := by
    unfold isHealthCheck strIncludes
    rcases hua with h | h | h | h <;> simp [h]
  refine ⟨hhc, ?_⟩
  simp [dispatch, appGet, rootHandlerBody, hm, hp, hhc]

/-- Witness for C2: the concrete GoogleHC probe. -/
theorem C2_witness :
    isHealthCheck googleHcProbe = true ∧
    dispatch (appGet "/" rootHandlerBody :: []) googleHcProbe =
      { step := Step.respond { status := 200, body := "OK" }
        logs := [{ method := Method.GET, path := "/", classifiedHealthCheck := true }] } :=
  C2_health_ua_short_circuits googleHcProbe [] rfl rfl (Or.inl (by decide))

/-- C3: a GET request to `/` carrying `x-health-check: true`, or
`x-replit-health-check: true`, or the query parameter `health=check`, is
classified as a health check, whatever its user-agent. -/
theorem C3_header_query_signals (r : Request)
    (h : r.header "x-health-check" = some "true" ∨
         r.header "x-replit-health-check" = some "true" ∨
         r.queryParam "health" = some "check") :
    isHealthCheck r = true := by
  unfold isHealthCheck
  rcases h with h | h | h <;> simp [h]

/-- Witness for C3: the explicit-header probe, which carries a browser
user-agent. -/
theorem C3_witness : isHealthCheck headerProbe = true :=
  C3_header_query_signals headerProbe (Or.inl (by decide))

/-- C4: a GET request to `/` with none of the health-check signals is
classified false, and the root route steps to `next()`: the rest of the
stack sees the same request and determines the outcome, the root route
contributing only its log entry and no response. -/
theorem C4_no_signal_forwards (r : Request)
    (rest : List (Request → HandlerOutcome))
    (hm : r.method = Method.GET) (hp : r.path = "/")
    (h1 : ¬ "GoogleHC".data <:+: r.userAgent.data)
    (h2 : ¬ "HealthCheck".data <:+: r.userAgent.data)
    (h3 : ¬ "curl".data <:+: r.userAgent.data)
    (h4 : ¬ "Replit".data <:+: r.userAgent.data)
    (h5 : ¬ r.header "x-health-check" = some "true")
    (h6 : ¬ r.header "x-replit-health-check" = some "true")
    (h7 : ¬ r.queryParam "health" = some "check") :
    isHealthCheck r = false ∧
    dispatch (appGet "/" rootHandlerBody :: rest) r =
      { step := (dispatch rest r).step
        logs := { method := Method.GET, path := "/", classifiedHealthCheck := false }
          :: (dispatch rest r).logs } := by
  have hhc : isHealthCheck r = false := by
    unfold isHealthCheck strIncludes
    simp [h1, h2, h3, h4, h5, h6, h7]
  refine ⟨hhc, ?_⟩
  simp [dispatch, appGet, rootHandlerBody, hm, hp, hhc]

/-- Witness for C4: the concrete browser request is forwarded downstream. -/
theorem C4_witness :
    isHealthCheck browserRequest = false ∧
    dispatch (appGet "/" rootHandlerBody :: []) browserRequest =
      { step := (dispatch [] browserRequest).step
        logs := { method := Method.GET, path := "/", classifiedHealthCheck := false }
          :: (dispatch [] browserRequest).logs } :=
  C4_no_signal_forwards browserRequest [] rfl rfl (by decide) (by decide) (by decide)
    (by decide) (by decide) (by decide) (by decide)

/-- C7: the classifier is a pure function of the request's method, path,
headers and query: two requests agreeing on those fields (but possibly
differing in `ip`, `body`, or anything outside the visible fields) are
classified identically, with no state from prior requests anywhere in its
signature. -/
theorem C7_classifier_deterministic (r₁ r₂ : Request)
    (_hm : r₁.method = r₂.method) (_hp : r₁.path = r₂.path)
    (hh : r₁.headers = r₂.headers) (hq : r₁.query = r₂.query) :
    isHealthCheck r₁ = isHealthCheck r₂ := by
  unfold isHealthCheck Request.userAgent Request.header Request.queryParam
  rw [hh, hq]

/-- Witness for C7: the GoogleHC probe and a copy with different `ip` and
`body` classify identically. -/
theorem C7_witness :
    isHealthCheck googleHcProbe =
      isHealthCheck
        { method := Method.GET, path := "/"
          headers := [("user-agent", "GoogleHC/1.0")], query := []
          ip := "192.0.2.99", body := "something entirely different" } :=
  C7_classifier_deterministic googleHcProbe
    { method := Method.GET, path := "/"
      headers := [("user-agent", "GoogleHC/1.0")], query := []
      ip := "192.0.2.99", body := "something entirely different" }
    rfl rfl rfl rfl

/-- A HEAD request to `/` with a curl user-agent, as sent by `curl -I`. -/
def headCurlProbe : Request :=
  { method := Method.HEAD, path := "/"
    headers := [("user-agent", "curl/8.5.0")], query := []
    ip := "10.1.2.3", body := "" }

/-- Counterexample to C9 as stated: a HEAD request to `/` is not a GET
request, yet Express dispatches it to the `app.get('/')` handler (no HEAD
route is registered), so the root route classifies it, logs it, and answers
status 200 — it is not true that only GET requests reach the classifier. -/
theorem C9_counterexample_head_classified :
    headCurlProbe.method ≠ Method.GET ∧
    appGet "/" rootHandlerBody headCurlProbe =
      { step := Step.respond { status := 200, body := "OK" }
        logs := [{ method := Method.HEAD, path := "/", classifiedHealthCheck := true }] } :=
  ⟨by decide, by decide⟩

/-- C9 (amended): only GET and HEAD requests to `/` are subject to
health-check classification — HEAD because Express routes HEAD requests to
GET handlers when no HEAD route exists. A request to `/` with any other
method (POST, PUT, DELETE, ...) is never answered by the root route and its
classifier never logs: the route is skipped with an empty outcome,
regardless of user-agent, headers or query. -/
theorem C9_non_get_head_not_classified (r : Request)
    (hg : r.method ≠ Method.GET) (hh : r.method ≠ Method.HEAD) :
    appGet "/" rootHandlerBody r = { step := Step.next, logs := [] } := by
  simp [appGet, hg, hh]

/-- Witness for C9 (amended): a POST to `/` carrying every health-check
signal is neither answered nor logged by the root route. -/
theorem C9_witness :
    appGet "/" rootHandlerBody postRootRequest = { step := Step.next, logs := [] } :=
  C9_non_get_head_not_classified postRootRequest (by decide) (by decide)

/-- C5: a GET to `/health`, `/api/health` or `/__repl` is answered with
status 200, body `"OK"`, by the fixed endpoints registered right after the
root route — for every header set and query, with the classifier playing no
part, and independently of everything registered later in the stack. -/
theorem C5_fixed_health_paths (r : Request)
    (rest : List (Request → HandlerOutcome))
    (hm : r.method = Method.GET)
    (hp : r.path = "/health" ∨ r.path = "/api/health" ∨ r.path = "/__repl") :
    dispatch (healthRoutes ++ rest) r =
      { step := Step.respond { status := 200, body := "OK" }
        logs := [{ method := Method.GET, path := r.path, classifiedHealthCheck := true }] } := by
  rcases hp with hp | hp | hp <;>
    simp [healthRoutes, dispatch, appGet, fixedOkBody, hm, hp]

/-- Witness for C5: the `/api/health` request whose headers and query argue
against being a health check is still answered 200 `"OK"`. -/
theorem C5_witness :
    dispatch (healthRoutes ++ []) apiHealthRequest =
      { step := Step.respond { status := 200, body := "OK" }
        logs := [{ method := Method.GET, path := "/api/health", classifiedHealthCheck := true }] } :=
  C5_fixed_health_paths apiHealthRequest [] rfl (Or.inr (Or.inl rfl))

/-! ## Theorems for the claims about the catch-all error handler -/

/-- A JS error whose `status` property is present but `0`: `err.status ||
err.statusCode || 500` skips it, because `0` is falsy. -/
def zeroStatusError : JsError :=
  { status := some 0, statusCode := some 404, message := none }

/-- Counterexample to C6 as stated: this error's `status` property is
present (and equals 0), yet the handler's response status is 404, taken
from `statusCode` — JS `||` selects by truthiness, not presence. -/
theorem C6_counterexample_zero_status :
    zeroStatusError.status = some 0 ∧
    (errorHandler zeroStatusError).status = 404 ∧ (404 : Nat) ≠ 0 :=
  ⟨rfl, rfl, by decide⟩

/-- C6 (amended): the catch-all handler's response status is the error's
`status` when that is present and nonzero (JS-truthy), otherwise its
`statusCode` when present and nonzero, otherwise 500; the response is the
JSON object `{ message }`; and the handler never terminates the process. -/
theorem C6_error_status_and_containment (e : JsError) :
    (∀ n, e.status = some n → n ≠ 0 → (errorHandler e).status = n) ∧
    (truthyNum e.status = none →
      ∀ n, e.statusCode = some n → n ≠ 0 → (errorHandler e).status = n) ∧
    (truthyNum e.status = none → truthyNum e.statusCode = none →
      (errorHandler e).status = 500) ∧
    (errorHandler e).processTerminated = false := by
  refine ⟨?_, ?_, ?_, rfl⟩
  · intro n hn h0
    simp [errorHandler, truthyNum, hn, h0]
  · intro hs n hn h0
    simp only [errorHandler, hs, Option.getD_none]
    simp [truthyNum, hn, h0]
  · intro hs hsc
    simp [errorHandler, hs, hsc]

/-- Witness for C6 (amended): a 404 error keeps its status and the process
survives. -/
theorem C6_witness :
    (errorHandler { status := some 404, statusCode := none, message := some "Not Found" }).status = 404 ∧
    (errorHandler { status := some 404, statusCode := none, message := some "Not Found" }).processTerminated = false :=
  ⟨(C6_error_status_and_containment
      { status := some 404, statusCode := none, message := some "Not Found" }).1
      404 rfl (by decide),
   (C6_error_status_and_containment
      { status := some 404, statusCode := none, message := some "Not Found" }).2.2.2⟩

/-- C10: when the error's `message` property is absent or falsy (the empty
string), the JSON body's `message` field is exactly `"Internal Server
Error"`. -/
theorem C10_default_error_message (e : JsError)
    (h : e.message = none ∨ e.message = some "") :
    (errorHandler e).body.message = "Internal Server Error" := by
  rcases h with h | h <;> simp [errorHandler, truthyStr, h]

/-- Witness for C10: an error carrying the empty-string message. -/
theorem C10_witness :
    (errorHandler { status := none, statusCode := none, message := some "" }).body.message =
      "Internal Server Error" :=
  C10_default_error_message { status := none, statusCode := none, message := some "" }
    (Or.inr rfl)

/-! ## Theorems for the claim about the request logging middleware -/

/-- Any truncated-or-not log line has at most 82 characters: the truncation
branch keeps 79 characters and appends the 3-character `truncSuffix`. -/
theorem truncateLogLine_length_le (line : String) :
    (truncateLogLine line).length ≤ 82 := by
  unfold truncateLogLine
  split
  · have hsuffix : truncSuffix.length = 3 := rfl
    have happ : (String.mk (line.data.take 79) ++ truncSuffix).length =
        (line.data.take 79).length + truncSuffix.length := by
      simp [String.length_append]
    rw [happ, hsuffix]
    have : (line.data.take 79).length ≤ 79 := by
      simp [List.length_take]
    omega
  · omega

/-- An `/api` path 66 characters long, producing a raw log line of 81
characters. -/
def longApiPath : String := "/api/" ++ String.mk (List.replicate 61 'a')

/-- Counterexample to C8 as stated: for this `/api` request the emitted,
truncated log line has 82 characters — the appended suffix standing for the
ellipsis is three characters long in the source, so truncation yields
79 + 3 = 82 > 80 characters. -/
theorem C8_counterexample_line_exceeds_budget :
    (emittedLog Method.GET longApiPath 200 3 none).map String.length = some 82 ∧
    ¬ (82 : Nat) ≤ 80 := by
  refine ⟨by decide, by decide⟩

/-- C8 (amended): the middleware emits a log line only for paths starting
with `/api`; a raw line longer than 80 characters is cut to its first 79
characters plus the fixed 3-character suffix; consequently every emitted
line has at most 82 characters (not 80: a truncated line is exactly 82). -/
theorem C8_api_logging_truncation (m : Method) (p : String) (st du : Nat)
    (cap : Option String) :
    (strStartsWith p "/api" = false → emittedLog m p st du cap = none) ∧
    (∀ l, emittedLog m p st du cap = some l →
      strStartsWith p "/api" = true ∧ l.length ≤ 82) ∧
    (strStartsWith p "/api" = true → (jsLogLine m p st du cap).length > 80 →
      emittedLog m p st du cap =
        some (String.mk ((jsLogLine m p st du cap).data.take 79) ++ truncSuffix)) := by
  refine ⟨?_, ?_, ?_⟩
  · intro hp
    simp [emittedLog, hp]
  · intro l hl
    by_cases hp : strStartsWith p "/api"
    · refine ⟨hp, ?_⟩
      have : l = truncateLogLine (jsLogLine m p st du cap) := by
        simpa [emittedLog, hp] using hl.symm
      rw [this]
      exact truncateLogLine_length_le _
    · simp [emittedLog, hp] at hl
  · intro hp hlen
    simp [emittedLog, truncateLogLine, hp, hlen]

/-- Witness for C8 (amended): a non-`/api` path is not logged, and a short
`/api` line respects the 82-character bound. -/
theorem C8_witness :
    emittedLog Method.POST "/users" 200 3 none = none ∧
    (truncateLogLine (jsLogLine Method.GET "/api/ping" 200 3 none)).length ≤ 82 :=
  ⟨(C8_api_logging_truncation Method.POST "/users" 200 3 none).1 (by decide),
   ((C8_api_logging_truncation Method.GET "/api/ping" 200 3 none).2.1
      (truncateLogLine (jsLogLine Method.GET "/api/ping" 200 3 none)) (by decide)).2⟩

/-! ## Theorem for the claim about migration exit codes -/

/-- C1: evaluation of the add-full-preview-url script at the failing input.
With `DATABASE_URL` set and its `ALTER TABLE` statement failing, the script
exits 0: the inner `catch` only logs the error and execution falls through
to `process.exit(0)` — contradicting the claimed nonzero exit on failure
(and the script's own outer `.catch`, which maps failures to exit code 1). -/
theorem C1_full_preview_swallows_failure :
    fullPreviewMigrationExit true (Except.error "ALTER TABLE videos failed") = 0 := rfl

end PlateHub
